/-
Verification of the terraform-earth map-compositing pipeline.

Shallow embedding of the repository sources (src/main.py, src/layers/solar.py,
src/layers/pipelines.py, src/layers/co2.py).  Python floats are modelled as
exact rationals (the normalization arithmetic here never depends on rounding);
a Python float division by zero raises ZeroDivisionError, which we model by
returning `none` from the function containing the division.  Network access
and the filesystem are modelled as explicit parameters (a fetch oracle and
cache/file contents), so every definition is a pure, executable function.
-/
import Mathlib

namespace TerraformEarth

/-- Python `min` over a non-empty list (a left fold); never called on `[]`
in the sources, so the `[]` case is an arbitrary default. -/
def listMin : List ℚ → ℚ
  | [] => 0
  | x :: xs => xs.foldl min x

/-- Python `max` over a non-empty list (a left fold). -/
def listMax : List ℚ → ℚ
  | [] => 0
  | x :: xs => xs.foldl max x

/-- Python single-character `str.replace(old, new)` (both arguments are one
character at the call site in co2.py), as a structural map over the
characters of the string. -/
def pyReplaceChar (old new : Char) (s : String) : String :=
  ⟨s.data.map (fun c => if c = old then new else c)⟩

/-- pandas `.str.strip()` (Python `str.strip()` with no argument): drop
leading and trailing whitespace, as structural recursion over the
characters of the string. -/
def pyStrip (s : String) : String :=
  ⟨(((s.data.dropWhile (fun c => c.isWhitespace)).reverse.dropWhile
      (fun c => c.isWhitespace)).reverse)⟩

/-- Python `key in dict` for an association-list model of a dict. -/
def hasKey {α : Type} (d : List (String × α)) (k : String) : Bool :=
  d.any (fun kv => kv.1 == k)

/-- Python `dict.get` / `dict[...]` for an association-list model of a dict. -/
def lookupStr {α : Type} (d : List (String × α)) (k : String) : Option α :=
  (d.find? (fun kv => kv.1 == k)).map (fun kv => kv.2)

/-! ## src/layers/solar.py -/

/-- The min-max normalization expression `(val - vmin) / (vmax - vmin)` of
solar.py line 88 and main.py line 94. -/
def minmaxNorm (vmin vmax v : ℚ) : ℚ := (v - vmin) / (vmax - vmin)

/-- The divide-by-maximum expression `val / vmax` of main.py lines 107
(`count / pmax`) and 124 (`val / cmax`). -/
def maxNorm (vmax v : ℚ) : ℚ := v / vmax

/-- numpy `np.arange(start, stop, step)` for exactly-representable rational
inputs: the values `start + k*step` for `0 ≤ k < ⌈(stop - start)/step⌉`. -/
def arange (start stop step : ℚ) : List ℚ :=
  (List.range (⌈(stop - start) / step⌉).toNat).map
    (fun (k : ℕ) => start + (k : ℚ) * step)

/-- solar.py `_generate_grid`: latitudes `np.arange(-90, 91, lat_step)` crossed
with longitudes `np.arange(-180, 181, lon_step)`, row-major by latitude. -/
def _generate_grid (lat_step lon_step : ℚ) : List (ℚ × ℚ) :=
  (arange (-90) 91 lat_step).flatMap
    (fun lat => (arange (-180) 181 lon_step).map (fun lon => (lat, lon)))

/-- State of the local solar cache file `data/solar_cache.json`:
absent, present but unparseable/ill-shaped JSON, or a parsed triple list.
(A parsed empty list is falsy in Python, so it also falls through.) -/
inductive CacheState
  | absent
  | unparseable
  | parsed (data : List (ℚ × ℚ × ℚ))
deriving DecidableEq

/-- Result of one `get_global_solar_points` run: the returned points, what (if
anything) was written to the cache file, and the coordinates fetched over the
network (`_fetch_point_data` calls). -/
structure SolarResult where
  points : List (ℚ × ℚ × ℚ)
  cacheWrite : Option (List (ℚ × ℚ × ℚ))
  networkCalls : List (ℚ × ℚ)
deriving DecidableEq

/-- The sampling loop of solar.py lines 56-66: enumerate the grid from index 1,
keep indices with `i % skip_factor == 0`, fetch each kept coordinate, and drop
fetches that returned NaN (modelled as `none`).  Returns the collected points
and the list of fetched coordinates. -/
def collectPoints (fetch : ℚ → ℚ → Option ℚ) (skip_factor : ℕ) :
    ℕ → List (ℚ × ℚ) → List (ℚ × ℚ × ℚ) × List (ℚ × ℚ)
  | _, [] => ([], [])
  | i, (lat, lon) :: rest =>
    if i % skip_factor ≠ 0 then collectPoints fetch skip_factor (i + 1) rest
    else
      let r := collectPoints fetch skip_factor (i + 1) rest
      match fetch lat lon with
      | some v => ((lat, lon, v) :: r.1, (lat, lon) :: r.2)
      | none => (r.1, (lat, lon) :: r.2)

/-- The cache-miss path of solar.py `get_global_solar_points` (lines 52-73):
sample the grid, then write the collected points to the cache file.  Python
`i % 0` raises ZeroDivisionError, modelled as `none` when the loop body runs
with `skip_factor = 0`. -/
def samplePass (fetch : ℚ → ℚ → Option ℚ) (lat_step lon_step : ℚ)
    (skip_factor : ℕ) : Option SolarResult :=
  let grid := _generate_grid lat_step lon_step
  if skip_factor = 0 ∧ grid ≠ [] then none
  else
    let r := collectPoints fetch skip_factor 1 grid
    some ⟨r.1, some r.1, r.2⟩

/-- solar.py `get_global_solar_points`: a present cache file that parses to a
non-empty list is returned directly (no network calls, no write); otherwise a
full sampling pass runs and its result is written back to the cache file. -/
def get_global_solar_points (cache : CacheState) (fetch : ℚ → ℚ → Option ℚ)
    (lat_step lon_step : ℚ) (skip_factor : ℕ) : Option SolarResult :=
  match cache with
  | .parsed data =>
      if data ≠ [] then some ⟨data, none, []⟩
      else samplePass fetch lat_step lon_step skip_factor
  | .absent => samplePass fetch lat_step lon_step skip_factor
  | .unparseable => samplePass fetch lat_step lon_step skip_factor

/-- solar.py `add_solar_points_layer` (lines 76-89): returns the heatmap rows;
`none` models the ZeroDivisionError raised when the collection is non-empty
and constant (vmax == vmin).  Values are already NaN-free in the ℚ model. -/
def add_solar_points_layer (points : List (ℚ × ℚ × ℚ)) :
    Option (List (ℚ × ℚ × ℚ)) :=
  if points = [] then some []
  else
    let vals := points.map (fun p => p.2.2)
    let vmin := listMin vals
    let vmax := listMax vals
    if vmax - vmin = 0 then none
    else some (points.map (fun p => (p.1, p.2.1, minmaxNorm vmin vmax p.2.2)))

/-! ## src/layers/pipelines.py (static data used by main.py) -/

/-- pipelines.py `PIPELINE_COUNTS`. -/
def PIPELINE_COUNTS : List (String × ℚ) :=
  [("Argentina", 1709), ("Australia", 1453), ("Azerbaijan", 525),
   ("Brazil", 1371), ("Canada", 5343), ("Chile", 156), ("China", 3302),
   ("Colombia", 1474), ("Ecuador", 642), ("France", 260), ("Georgia", 248),
   ("Germany", 43), ("India", 4466), ("Iran", 248), ("Kazakhstan", 2468),
   ("Libya", 595), ("Mexico", 21), ("Netherlands", 432), ("New Zealand", 10),
   ("Oman", 300), ("Panama", 0), ("Peru", 560), ("Qatar", 437),
   ("Russia", 12187), ("Saudi Arabia", 1580), ("Spain", 350),
   ("Switzerland", 118), ("Türkiye", 1075), ("United Arab Emirates", 306),
   ("United Kingdom", 37), ("United States", 51123)]

/-- pipelines.py `COUNTRY_COORDS`. -/
def COUNTRY_COORDS : List (String × (ℚ × ℚ)) :=
  [("Argentina", (-38.4, -63.6)), ("Australia", (-25.3, 133.8)),
   ("Azerbaijan", (40.1, 47.6)), ("Brazil", (-10.8, -52.9)),
   ("Canada", (56.1, -106.3)), ("Chile", (-35.7, -71.5)),
   ("China", (35.9, 104.2)), ("Colombia", (4.6, -74.1)),
   ("Ecuador", (-1.8, -78.2)), ("France", (46.2, 2.2)),
   ("Georgia", (42.3, 43.4)), ("Germany", (51.2, 10.5)),
   ("India", (20.6, 78.9)), ("Iran", (32.4, 53.7)),
   ("Kazakhstan", (48.0, 67.0)), ("Libya", (26.3, 17.2)),
   ("Mexico", (23.6, -102.6)), ("Netherlands", (52.1, 5.3)),
   ("New Zealand", (-40.9, 174.9)), ("Oman", (21.5, 55.9)),
   ("Panama", (8.5, -80.8)), ("Peru", (-9.2, -75.0)),
   ("Qatar", (25.3, 51.2)), ("Russia", (61.5, 105.3)),
   ("Saudi Arabia", (23.9, 45.1)), ("Spain", (40.5, -3.7)),
   ("Switzerland", (46.8, 8.2)), ("Türkiye", (39.0, 35.2)),
   ("United Arab Emirates", (23.4, 53.8)), ("United Kingdom", (55.4, -3.4)),
   ("United States", (37.1, -95.7))]

/-! ## src/layers/co2.py -/

/-- co2.py `get_country_co2_data`: a missing CSV file raises FileNotFoundError
(modelled as `.error`); otherwise rows with a missing `co2_total_mt` are
dropped (`dropna`) and `country_key` is the stripped country name. -/
def get_country_co2_data (csvFile : Option (List (String × Option ℚ))) :
    Except String (List (String × ℚ)) :=
  match csvFile with
  | none => .error "FileNotFoundError: Missing data file"
  | some rows =>
    .ok (rows.filterMap (fun r => r.2.map (fun v => (pyStrip r.1, v))))

/-- co2.py `ALIASES`: the static World-Bank-name to Natural-Earth-ADMIN table. -/
def ALIASES : List (String × String) :=
  [("United States", "United States of America"),
   ("Russia", "Russian Federation"),
   ("Russian Federation", "Russian Federation"),
   ("Viet Nam", "Vietnam"),
   ("Korea, Rep.", "South Korea"),
   ("Korea, Dem. People\u0027s Rep.", "North Korea"),
   ("Congo, Dem. Rep.", "Democratic Republic of the Congo"),
   ("Congo, Rep.", "Republic of the Congo"),
   ("Gambia, The", "The Gambia"),
   ("Bahamas, The", "The Bahamas"),
   ("Egypt, Arab Rep.", "Egypt"),
   ("Iran, Islamic Rep.", "Iran"),
   ("Hong Kong SAR, China", "Hong Kong S.A.R. of China"),
   ("Macao SAR, China", "Macao S.A.R, China"),
   ("Cote d\u0027Ivoire", "Côte d\u2019Ivoire"),
   ("Czechia", "Czech Republic"),
   ("Turkiye", "Turkey"),
   ("Syrian Arab Republic", "Syria"),
   ("Lao PDR", "Laos"),
   ("Kyrgyz Republic", "Kyrgyzstan"),
   ("Micronesia, Fed. Sts.", "Federated States of Micronesia"),
   ("Yemen, Rep.", "Yemen"),
   ("Venezuela, RB", "Venezuela"),
   ("Brunei Darussalam", "Brunei"),
   ("Eswatini", "Swaziland"),
   ("North Macedonia", "Macedonia"),
   ("Myanmar", "Myanmar"),
   ("Cabo Verde", "Cape Verde"),
   ("Timor-Leste", "East Timor"),
   ("São Tomé and Príncipe", "Sao Tome and Principe"),
   ("Sao Tome and Principe", "Sao Tome and Principe"),
   ("Palestine", "Palestine"),
   ("West Bank and Gaza", "Palestine"),
   ("Curacao", "Curaçao"),
   ("Sint Maarten (Dutch part)", "Sint Maarten"),
   ("Channel Islands", "Jersey"),
   ("Virgin Islands (U.S.)", "United States Virgin Islands"),
   ("Puerto Rico (US)", "Puerto Rico"),
   ("French Polynesia", "French Polynesia"),
   ("Greenland", "Greenland")]

/-- The Unicode right single quotation mark (U+2019) replaced by co2.py
line 135. -/
def rsquoChar : Char := Char.ofNat 0x2019

/-- The plain ASCII apostrophe (U+0027) substituted by co2.py line 135. -/
def aposChar : Char := Char.ofNat 0x27

/-- co2.py `resolve_admin_name` (lines 126-138): exact match, then alias table
(accepted only when the target is a key of the mapping), then retry after
replacing the Unicode apostrophe; `none` when all three fail. -/
def resolve_admin_name (name : String)
    (coords_dict : List (String × (ℚ × ℚ))) : Option String :=
  if hasKey coords_dict name then some name
  else
    match lookupStr ALIASES name with
    | some a =>
      if hasKey coords_dict a then some a
      else
        let cand := pyReplaceChar rsquoChar aposChar name
        if hasKey coords_dict cand then some cand else none
    | none =>
      let cand := pyReplaceChar rsquoChar aposChar name
      if hasKey coords_dict cand then some cand else none

/-- A GeoJSON geometry as consumed by co2.py `generate_country_coords`: ring
vertices are `(lon, lat)` pairs in GeoJSON position order. -/
inductive Geometry
  | polygon (rings : List (List (ℚ × ℚ)))
  | multiPolygon (polys : List (List (List (ℚ × ℚ))))
  | other

/-- A GeoJSON feature: the admin name resulting from the
`ADMIN`/`name`/`admin` property chain (`none` when absent), and the geometry
(`none` when the type or the coordinates are missing). -/
structure Feature where
  admin : Option String
  geom : Option Geometry

/-- co2.py `_poly_mean`: componentwise mean of the vertex array, returned as
`(lat, lon)` (GeoJSON stores `(lon, lat)`).  On an empty vertex list the
numpy mean collapses to a scalar NaN and the tuple unpacking raises, which the
caller catches and turns into a skip; modelled as `none`. -/
def _poly_mean (coords : List (ℚ × ℚ)) : Option (ℚ × ℚ) :=
  if coords = [] then none
  else some ((coords.map (fun q => q.2)).sum / coords.length,
             (coords.map (fun q => q.1)).sum / coords.length)

/-- The loop of co2.py `_largest_outer_ring` with its `best`/`best_len`
accumulators: for each sub-polygon take its outer ring (`poly[0]`, or `[]`
for an empty sub-polygon) and keep it when its vertex count strictly exceeds
the best so far. -/
def lorGo (best : List (ℚ × ℚ)) (best_len : ℤ) :
    List (List (List (ℚ × ℚ))) → List (ℚ × ℚ)
  | [] => best
  | poly :: rest =>
    let outer := poly.headD []
    if (outer.length : ℤ) > best_len then lorGo outer (outer.length : ℤ) rest
    else lorGo best best_len rest

/-- co2.py `_largest_outer_ring`: the loop starting from `best = []`,
`best_len = -1`. -/
def _largest_outer_ring (multipoly : List (List (List (ℚ × ℚ)))) :
    List (ℚ × ℚ) :=
  lorGo [] (-1) multipoly

/-- The per-feature body of co2.py `generate_country_coords` (lines 49-69):
skip when the admin name is missing or falsy, the geometry type or coordinates
are missing, or the type is neither Polygon nor MultiPolygon; a Polygon uses
its first ring, a MultiPolygon the largest outer ring (skipped when empty). -/
def featureCentroid (f : Feature) : Option (String × (ℚ × ℚ)) :=
  match f.admin with
  | none => none
  | some admin =>
    if admin = "" then none
    else
      match f.geom with
      | none => none
      | some (.polygon rings) =>
        match rings.head? with
        | none => none
        | some outer => (_poly_mean outer).map (fun c => (admin, c))
      | some (.multiPolygon polys) =>
        let outer := _largest_outer_ring polys
        if outer = [] then none
        else (_poly_mean outer).map (fun c => (admin, c))
      | some .other => none

/-- co2.py `generate_country_coords`: the sequence of `coords[admin] = (lat,
lon)` insertions over the feature collection (the write-back of the JSON cache
file is a side effect not needed by any claim). -/
def generate_country_coords (features : List Feature) :
    List (String × (ℚ × ℚ)) :=
  features.filterMap featureCentroid

/-- co2.py `get_country_coords`: load the on-disk centroid cache when present,
otherwise fetch the GeoJSON (an unavailable source raises URLError, uncaught)
and rebuild. -/
def get_country_coords (coordsFile : Option (List (String × (ℚ × ℚ))))
    (geoSource : Option (List Feature)) :
    Except String (List (String × (ℚ × ℚ))) :=
  match coordsFile with
  | some c => .ok c
  | none =>
    match geoSource with
    | none => .error "URLError: geometry fetch failed"
    | some features => .ok (generate_country_coords features)

/-! ## src/main.py -/

/-- main.py `is_on_land` (lines 25-30): fail-open `true` when the polygon
collection is empty (load failure), else `LAND.contains(Point(lon, lat)).any()`
with the containment test of each polygon a black-box predicate on
`(lon, lat)`. -/
def is_on_land (LAND : List ((ℚ × ℚ) → Bool)) (lat lon : ℚ) : Bool :=
  if LAND.isEmpty then true
  else LAND.any (fun g => g (lon, lat))

/-- main.py lines 50-55: rescale the three sliders by their total when the
total is positive, else leave them unchanged. -/
def normalizeWeights (s p c : ℚ) : ℚ × ℚ × ℚ :=
  let total := s + p + c
  if 0 < total then (s / total, p / total, c / total) else (s, p, c)

/-- The solar loop of the Terraformer block (main.py lines 91-95) with
`smin`, `smax` fixed: skip off-land points, else emit
`solar_weight * (val - smin) / (smax - smin)`; `none` models the
ZeroDivisionError raised at the first on-land point when `smax == smin`. -/
def heatSolarGo (smin smax w : ℚ) (land : ℚ → ℚ → Bool) :
    List (ℚ × ℚ × ℚ) → Option (List (ℚ × ℚ × ℚ))
  | [] => some []
  | (lat, lon, val) :: rest =>
    if land lat lon then
      if smax - smin = 0 then none
      else (heatSolarGo smin smax w land rest).map
        (fun tl => (lat, lon, w * minmaxNorm smin smax val) :: tl)
    else heatSolarGo smin smax w land rest

/-- The solar part of the Terraformer block (main.py lines 88-95):
`if solar_points:` guards the whole block, then `smin`/`smax` are min and max
over all point values. -/
def heatSolar (pts : List (ℚ × ℚ × ℚ)) (land : ℚ → ℚ → Bool) (w : ℚ) :
    Option (List (ℚ × ℚ × ℚ)) :=
  if pts = [] then some []
  else
    let svals := pts.map (fun p => p.2.2)
    heatSolarGo (listMin svals) (listMax svals) w land pts

/-- The pipeline loop of the Terraformer block (main.py lines 101-108) with
`pmax` fixed: skip countries without coordinates and off-land centroids, else
emit `pipeline_weight * (count / pmax)`; `none` models the ZeroDivisionError
when `pmax == 0` and the division is reached. -/
def heatPipelinesGo (pmax w : ℚ) (coords : List (String × (ℚ × ℚ)))
    (land : ℚ → ℚ → Bool) : List (String × ℚ) → Option (List (ℚ × ℚ × ℚ))
  | [] => some []
  | (c, count) :: rest =>
    match lookupStr coords c with
    | none => heatPipelinesGo pmax w coords land rest
    | some (lat, lon) =>
      if land lat lon then
        if pmax = 0 then none
        else (heatPipelinesGo pmax w coords land rest).map
          (fun tl => (lat, lon, w * maxNorm pmax count) :: tl)
      else heatPipelinesGo pmax w coords land rest

/-- The pipeline part of the Terraformer block (main.py lines 98-108):
`if p_vals:` guards the block, `pmax = max(p_vals)` over all counts. -/
def heatPipelines (counts : List (String × ℚ))
    (coords : List (String × (ℚ × ℚ))) (land : ℚ → ℚ → Bool) (w : ℚ) :
    Option (List (ℚ × ℚ × ℚ)) :=
  if counts = [] then some []
  else heatPipelinesGo (listMax (counts.map (fun kv => kv.2))) w coords land counts

/-- The CO₂ loop of the Terraformer block (main.py lines 114-125) with `cmax`
fixed: skip unresolved names, off-land centroids, and non-positive values,
else emit `co2_weight * (val / cmax)`.  A resolved admin missing from the
coords dict would be a KeyError (`none`); it is unreachable because
`resolve_admin_name` only returns keys of the dict. -/
def heatCO2Go (cmax w : ℚ) (coords : List (String × (ℚ × ℚ)))
    (land : ℚ → ℚ → Bool) : List (String × ℚ) → Option (List (ℚ × ℚ × ℚ))
  | [] => some []
  | (ck, val) :: rest =>
    match resolve_admin_name ck coords with
    | none => heatCO2Go cmax w coords land rest
    | some admin =>
      match lookupStr coords admin with
      | none => none
      | some (lat, lon) =>
        if land lat lon then
          if val ≤ 0 then heatCO2Go cmax w coords land rest
          else (heatCO2Go cmax w coords land rest).map
            (fun tl => (lat, lon, w * maxNorm cmax val) :: tl)
        else heatCO2Go cmax w coords land rest

/-- The CO₂ part of the Terraformer block (main.py lines 111-125):
`cmax = np.nanmax(co2_vals)` raises ValueError on an empty value array
(modelled as `none`); otherwise the row loop with `cmax` fixed. -/
def heatCO2 (rows : List (String × ℚ)) (coords : List (String × (ℚ × ℚ)))
    (land : ℚ → ℚ → Bool) (w : ℚ) : Option (List (ℚ × ℚ × ℚ)) :=
  if rows = [] then none
  else heatCO2Go (listMax (rows.map (fun r => r.2))) w coords land rows

/-- Lift an optional value into `Except`, naming the exception a `none`
models. -/
def exceptOfOption {α : Type} (msg : String) : Option α → Except String α
  | none => .error msg
  | some a => .ok a

/-- The module-level flow of main.py for a run with "Terraformer
Effectiveness" selected: normalize the slider weights (lines 50-55), load the
solar points (line 66, lat_step=20, lon_step=20, default skip), load the CO₂
dataframe (line 78, no try/except), load the centroid dict (line 85), then the
three heat loops in order and the combined heat-point list.  `.error` models
an uncaught exception ending the render. -/
def mainTerraformer (cache : CacheState) (fetch : ℚ → ℚ → Option ℚ)
    (csvFile : Option (List (String × Option ℚ)))
    (coordsFile : Option (List (String × (ℚ × ℚ))))
    (geoSource : Option (List Feature)) (LAND : List ((ℚ × ℚ) → Bool))
    (solar_w pipeline_w co2_w : ℚ) : Except String (List (ℚ × ℚ × ℚ)) := do
  let ws := normalizeWeights solar_w pipeline_w co2_w
  let sres ← exceptOfOption "ZeroDivisionError"
    (get_global_solar_points cache fetch 20 20 1)
  let co2_df ← get_country_co2_data csvFile
  let coords_dict ← get_country_coords coordsFile geoSource
  let hp1 ← exceptOfOption "ZeroDivisionError"
    (heatSolar sres.points (is_on_land LAND) ws.1)
  let hp2 ← exceptOfOption "ZeroDivisionError"
    (heatPipelines PIPELINE_COUNTS COUNTRY_COORDS (is_on_land LAND) ws.2.1)
  let hp3 ← exceptOfOption "ValueError"
    (heatCO2 co2_df coords_dict (is_on_land LAND) ws.2.2)
  pure (hp1 ++ hp2 ++ hp3)

/-! ## Specification predicates -/

/-- What the Grid Generator actually guarantees for positive steps: row-major
cross product of the two `arange` axes, length the product of the axis
lengths, every latitude in `[-90, 91)` and longitude in `[-180, 181)` (the
upper bounds are strict at 91/181, not 90/180), and the concrete 90°/180°
instance with its 9 lattice points. -/
def GridSpec (s t : ℚ) : Prop :=
  (_generate_grid s t).length =
    (arange (-90) 91 s).length * (arange (-180) 181 t).length ∧
  (∀ la lo : ℚ, (la, lo) ∈ _generate_grid s t ↔
    la ∈ arange (-90) 91 s ∧ lo ∈ arange (-180) 181 t) ∧
  (∀ la ∈ arange (-90) 91 s, -90 ≤ la ∧ la < 91) ∧
  (∀ lo ∈ arange (-180) 181 t, -180 ≤ lo ∧ lo < 181) ∧
  _generate_grid 90 180 =
    [(-90, -180), (-90, 0), (-90, 180), (0, -180), (0, 0), (0, 180),
     (90, -180), (90, 0), (90, 180)]

/-- What the three compositing normalization sites actually compute.  The
solar site (and solar.py `add_solar_points_layer`) uses true min-max
normalization, with outputs in `[0, 1]`, minimum to 0 and maximum to 1; the
CO₂ and pipeline sites instead divide by the maximum only (`val / cmax`,
`count / pmax`), so the CO₂ outputs lie in `(0, 1]` with the minimum
qualifying value mapping to `vmin / vmax`, not 0. -/
def NormSitesSpec (pts : List (ℚ × ℚ × ℚ)) (land : ℚ → ℚ → Bool)
    (w : ℚ) : Prop :=
  let smin := listMin (pts.map (fun p => p.2.2))
  let smax := listMax (pts.map (fun p => p.2.2))
  (∃ hp, heatSolar pts land w = some hp ∧
    ∀ x ∈ hp, ∃ p ∈ pts, x = (p.1, p.2.1, w * minmaxNorm smin smax p.2.2) ∧
      0 ≤ minmaxNorm smin smax p.2.2 ∧ minmaxNorm smin smax p.2.2 ≤ 1) ∧
  minmaxNorm smin smax smin = 0 ∧
  minmaxNorm smin smax smax = 1 ∧
  add_solar_points_layer pts =
    some (pts.map (fun p => (p.1, p.2.1, minmaxNorm smin smax p.2.2))) ∧
  (∀ rows coords hp3, heatCO2 rows coords land w = some hp3 →
    ∀ x ∈ hp3, ∃ r ∈ rows, 0 < r.2 ∧
      x.2.2 = w * maxNorm (listMax (rows.map (fun q => q.2))) r.2 ∧
      0 < maxNorm (listMax (rows.map (fun q => q.2))) r.2 ∧
      maxNorm (listMax (rows.map (fun q => q.2))) r.2 ≤ 1) ∧
  (∀ counts coords hp2, heatPipelines counts coords land w = some hp2 →
    ∀ x ∈ hp2, ∃ cc ∈ counts,
      x.2.2 = w * maxNorm (listMax (counts.map (fun q => q.2))) cc.2) ∧
  (∀ vmax v : ℚ, maxNorm vmax v = v / vmax) ∧
  (∀ a b v : ℚ, minmaxNorm a b v = (v - a) / (b - a))

/-- How the render actually degrades: a missing CO₂ CSV always aborts the
render with an uncaught FileNotFoundError; total solar-network failure yields
an empty point set (and an empty written cache) without any exception, and the
render then completes whenever the CO₂-side inputs load; an empty land-polygon
set fails open. -/
def GracefulSpec : Prop :=
  (∀ cache fetch coordsFile geoSource LAND sw pw cw,
    mainTerraformer cache fetch none coordsFile geoSource LAND sw pw cw =
      .error "FileNotFoundError: Missing data file") ∧
  (∀ csvFile coordsFile geoSource LAND sw pw cw rows coords hp3,
    get_country_co2_data csvFile = .ok rows →
    get_country_coords coordsFile geoSource = .ok coords →
    heatCO2 rows coords (is_on_land LAND)
      (normalizeWeights sw pw cw).2.2 = some hp3 →
    ∃ out, mainTerraformer .absent (fun _ _ => none) csvFile coordsFile
      geoSource LAND sw pw cw = .ok out) ∧
  (∀ LAND lat lon, LAND = [] → is_on_land LAND lat lon = true) ∧
  (∃ r, get_global_solar_points .absent (fun _ _ => none) 20 20 1 = some r ∧
    r.points = [] ∧ r.cacheWrite = some [])

/-! ## Helper lemmas -/

theorem foldl_min_le_init (xs : List ℚ) (x : ℚ) : xs.foldl min x ≤ x := by
  induction xs generalizing x with
  | nil => exact le_refl x
  | cons y ys ih => exact le_trans (ih (min x y)) (min_le_left x y)

theorem foldl_min_le_mem (xs : List ℚ) (x v : ℚ) (hv : v ∈ xs) :
    xs.foldl min x ≤ v := by
  induction xs generalizing x with
  | nil => cases hv
  | cons y ys ih =>
    rcases List.mem_cons.mp hv with h | h
    · subst h; exact le_trans (foldl_min_le_init ys (min x v)) (min_le_right x v)
    · exact ih (min x y) h

theorem listMin_le {l : List ℚ} {v : ℚ} (hv : v ∈ l) : listMin l ≤ v := by
  cases l with
  | nil => cases hv
  | cons x xs =>
    rcases List.mem_cons.mp hv with h | h
    · subst h; exact foldl_min_le_init xs v
    · exact foldl_min_le_mem xs x v h

theorem init_le_foldl_max (xs : List ℚ) (x : ℚ) : x ≤ xs.foldl max x := by
  induction xs generalizing x with
  | nil => exact le_refl x
  | cons y ys ih => exact le_trans (le_max_left x y) (ih (max x y))

theorem mem_le_foldl_max (xs : List ℚ) (x v : ℚ) (hv : v ∈ xs) :
    v ≤ xs.foldl max x := by
  induction xs generalizing x with
  | nil => cases hv
  | cons y ys ih =>
    rcases List.mem_cons.mp hv with h | h
    · subst h; exact le_trans (le_max_right x v) (init_le_foldl_max ys (max x v))
    · exact ih (max x y) h

theorem le_listMax {l : List ℚ} {v : ℚ} (hv : v ∈ l) : v ≤ listMax l := by
  cases l with
  | nil => cases hv
  | cons x xs =>
    rcases List.mem_cons.mp hv with h | h
    · subst h; exact init_le_foldl_max xs v
    · exact mem_le_foldl_max xs x v h

theorem listMin_le_listMax {l : List ℚ} (h : l ≠ []) : listMin l ≤ listMax l := by
  cases l with
  | nil => exact absurd rfl h
  | cons x xs =>
    exact le_trans (listMin_le (List.mem_cons_self x xs))
      (le_listMax (List.mem_cons_self x xs))

theorem minmaxNorm_bounds {vmin vmax v : ℚ} (h : vmin < vmax)
    (h1 : vmin ≤ v) (h2 : v ≤ vmax) :
    0 ≤ minmaxNorm vmin vmax v ∧ minmaxNorm vmin vmax v ≤ 1 := by
  unfold minmaxNorm
  constructor
  · apply div_nonneg <;> linarith
  · rw [div_le_one (by linarith)]; linarith

theorem mem_arange_iff {a b s x : ℚ} :
    x ∈ arange a b s ↔
      ∃ k : ℕ, (k : ℤ) < ⌈(b - a) / s⌉ ∧ x = a + (k : ℚ) * s := by
  unfold arange
  rw [List.mem_map]
  constructor
  · rintro ⟨k, hk, rfl⟩
    rw [List.mem_range] at hk
    exact ⟨k, by omega, rfl⟩
  · rintro ⟨k, hk, rfl⟩
    exact ⟨k, List.mem_range.mpr (by omega), rfl⟩

theorem arange_bounds {a b s : ℚ} (hs : 0 < s) {x : ℚ}
    (hx : x ∈ arange a b s) : a ≤ x ∧ x < b := by
  rcases mem_arange_iff.mp hx with ⟨k, hk, rfl⟩
  constructor
  · have : (0 : ℚ) ≤ (k : ℚ) * s := mul_nonneg (by positivity) hs.le
    linarith
  · have hq : ((k : ℤ) : ℚ) < (b - a) / s := Int.lt_ceil.mp hk
    have hks : (k : ℚ) * s < b - a := by
      have := (lt_div_iff₀ hs).mp (by exact_mod_cast hq)
      linarith
    linarith

theorem mem_generate_grid {s t la lo : ℚ} :
    (la, lo) ∈ _generate_grid s t ↔
      la ∈ arange (-90) 91 s ∧ lo ∈ arange (-180) 181 t := by
  simp only [_generate_grid, List.mem_flatMap, List.mem_map, Prod.mk.injEq]
  constructor
  · rintro ⟨a, ha, b, hb, rfl, rfl⟩
    exact ⟨ha, hb⟩
  · rintro ⟨ha, hb⟩
    exact ⟨la, ha, lo, hb, rfl, rfl⟩

theorem length_generate_grid (s t : ℚ) :
    (_generate_grid s t).length =
      (arange (-90) 91 s).length * (arange (-180) 181 t).length := by
  unfold _generate_grid
  generalize arange (-90) 91 s = lats
  generalize arange (-180) 181 t = lons
  induction lats with
  | nil => simp
  | cons a as ih => simp [ih, Nat.succ_mul, Nat.add_comm]

theorem arange_eval {a b s : ℚ} {n : ℕ} (h : ⌈(b - a) / s⌉ = (n : ℤ)) :
    arange a b s = (List.range n).map (fun (k : ℕ) => a + (k : ℚ) * s) := by
  unfold arange
  rw [h, Int.toNat_ofNat]

theorem grid_90_180 :
    _generate_grid 90 180 =
      [(-90, -180), (-90, 0), (-90, 180), (0, -180), (0, 0), (0, 180),
       (90, -180), (90, 0), (90, 180)] := by
  have h1 : arange (-90) 91 90 = [(-90 : ℚ), 0, 90] := by
    rw [arange_eval (n := 3) (by rw [Int.ceil_eq_iff]; norm_num)]
    norm_num [List.range_succ]
  have h2 : arange (-180) 181 180 = [(-180 : ℚ), 0, 180] := by
    rw [arange_eval (n := 3) (by rw [Int.ceil_eq_iff]; norm_num)]
    norm_num [List.range_succ]
  unfold _generate_grid
  rw [h1, h2]
  rfl

theorem heatSolarGo_eq_some {smin smax w : ℚ} {land : ℚ → ℚ → Bool}
    (h : smax - smin ≠ 0) (pts : List (ℚ × ℚ × ℚ)) :
    ∃ hp, heatSolarGo smin smax w land pts = some hp ∧
      ∀ x ∈ hp, ∃ p ∈ pts, x = (p.1, p.2.1, w * minmaxNorm smin smax p.2.2) := by
  induction pts with
  | nil => exact ⟨[], rfl, by simp⟩
  | cons p rest ih =>
    obtain ⟨hp, hrec, hmem⟩ := ih
    obtain ⟨lat, lon, val⟩ := p
    by_cases hl : land lat lon
    · refine ⟨(lat, lon, w * minmaxNorm smin smax val) :: hp, ?_, ?_⟩
      · simp [heatSolarGo, hl, h, hrec]
      · intro x hx
        rcases List.mem_cons.mp hx with h1 | h1
        · exact ⟨(lat, lon, val), List.mem_cons_self _ _, by simp [h1]⟩
        · obtain ⟨q, hq, he⟩ := hmem x h1
          exact ⟨q, List.mem_cons_of_mem _ hq, he⟩
    · refine ⟨hp, ?_, fun x hx => ?_⟩
      · simp [heatSolarGo, hl, hrec]
      · obtain ⟨q, hq, he⟩ := hmem x hx
        exact ⟨q, List.mem_cons_of_mem _ hq, he⟩

theorem heatCO2Go_weights {cmax w : ℚ} {coords : List (String × (ℚ × ℚ))}
    {land : ℚ → ℚ → Bool} :
    ∀ rows hp, heatCO2Go cmax w coords land rows = some hp →
      ∀ x ∈ hp, ∃ r ∈ rows, 0 < r.2 ∧ x.2.2 = w * maxNorm cmax r.2 := by
  intro rows
  induction rows with
  | nil =>
    intro hp h x hx
    simp [heatCO2Go] at h
    subst h
    cases hx
  | cons r rest ih =>
    intro hp h x hx
    obtain ⟨ck, val⟩ := r
    simp only [heatCO2Go] at h
    cases hres : resolve_admin_name ck coords with
    | none =>
      simp only [hres] at h
      obtain ⟨q, hq, h2⟩ := ih hp h x hx
      exact ⟨q, List.mem_cons_of_mem _ hq, h2⟩
    | some admin =>
      simp only [hres] at h
      cases hlk : lookupStr coords admin with
      | none => simp [hlk] at h
      | some c =>
        simp only [hlk] at h
        obtain ⟨lat, lon⟩ := c
        by_cases hl : land lat lon
        · rw [if_pos hl] at h
          by_cases hv : val ≤ 0
          · rw [if_pos hv] at h
            obtain ⟨q, hq, h2⟩ := ih hp h x hx
            exact ⟨q, List.mem_cons_of_mem _ hq, h2⟩
          · rw [if_neg hv] at h
            cases hrec : heatCO2Go cmax w coords land rest with
            | none => simp [hrec] at h
            | some tl =>
              rw [hrec] at h
              simp only [Option.map_some', Option.some.injEq] at h
              subst h
              rcases List.mem_cons.mp hx with h1 | h1
              · exact ⟨(ck, val), List.mem_cons_self _ _,
                  lt_of_not_le hv, by simp [h1]⟩
              · obtain ⟨q, hq, h2⟩ := ih tl hrec x h1
                exact ⟨q, List.mem_cons_of_mem _ hq, h2⟩
        · rw [if_neg hl] at h
          obtain ⟨q, hq, h2⟩ := ih hp h x hx
          exact ⟨q, List.mem_cons_of_mem _ hq, h2⟩

theorem heatCO2Go_skip_unresolved (cmax w : ℚ)
    (coords : List (String × (ℚ × ℚ))) (land : ℚ → ℚ → Bool)
    (ck : String) (v : ℚ) (rest : List (String × ℚ))
    (hres : resolve_admin_name ck coords = none) :
    heatCO2Go cmax w coords land ((ck, v) :: rest) =
      heatCO2Go cmax w coords land rest := by
  simp [heatCO2Go, hres]

theorem heatPipelinesGo_weights {pmax w : ℚ} {coords : List (String × (ℚ × ℚ))}
    {land : ℚ → ℚ → Bool} :
    ∀ cnts hp, heatPipelinesGo pmax w coords land cnts = some hp →
      ∀ x ∈ hp, ∃ cc ∈ cnts, x.2.2 = w * maxNorm pmax cc.2 := by
  intro cnts
  induction cnts with
  | nil =>
    intro hp h x hx
    simp [heatPipelinesGo] at h
    subst h
    cases hx
  | cons cc rest ih =>
    intro hp h x hx
    obtain ⟨c, count⟩ := cc
    simp only [heatPipelinesGo] at h
    cases hlk : lookupStr coords c with
    | none =>
      simp only [hlk] at h
      obtain ⟨q, hq, h2⟩ := ih hp h x hx
      exact ⟨q, List.mem_cons_of_mem _ hq, h2⟩
    | some p =>
      simp only [hlk] at h
      obtain ⟨lat, lon⟩ := p
      by_cases hl : land lat lon
      · rw [if_pos hl] at h
        by_cases hz : pmax = 0
        · rw [if_pos hz] at h; cases h
        · rw [if_neg hz] at h
          cases hrec : heatPipelinesGo pmax w coords land rest with
          | none => simp [hrec] at h
          | some tl =>
            rw [hrec] at h
            simp only [Option.map_some', Option.some.injEq] at h
            subst h
            rcases List.mem_cons.mp hx with h1 | h1
            · exact ⟨(c, count), List.mem_cons_self _ _, by simp [h1]⟩
            · obtain ⟨q, hq, h2⟩ := ih tl hrec x h1
              exact ⟨q, List.mem_cons_of_mem _ hq, h2⟩
      · rw [if_neg hl] at h
        obtain ⟨q, hq, h2⟩ := ih hp h x hx
        exact ⟨q, List.mem_cons_of_mem _ hq, h2⟩

theorem heatPipelinesGo_isSome {pmax w : ℚ} {coords : List (String × (ℚ × ℚ))}
    {land : ℚ → ℚ → Bool} (h : pmax ≠ 0) :
    ∀ cnts, ∃ hp, heatPipelinesGo pmax w coords land cnts = some hp := by
  intro cnts
  induction cnts with
  | nil => exact ⟨[], rfl⟩
  | cons cc rest ih =>
    obtain ⟨hp, hrec⟩ := ih
    obtain ⟨c, count⟩ := cc
    cases hlk : lookupStr coords c with
    | none => exact ⟨hp, by simp [heatPipelinesGo, hlk, hrec]⟩
    | some p =>
      obtain ⟨lat, lon⟩ := p
      by_cases hl : land lat lon
      · exact ⟨(lat, lon, w * maxNorm pmax count) :: hp,
          by simp [heatPipelinesGo, hlk, hl, h, hrec]⟩
      · exact ⟨hp, by simp [heatPipelinesGo, hlk, hl, hrec]⟩

theorem collectPoints_none_fst (sk : ℕ) :
    ∀ i g, (collectPoints (fun _ _ => none) sk i g).1 = [] := by
  intro i g
  induction g generalizing i with
  | nil => rfl
  | cons p rest ih =>
    obtain ⟨lat, lon⟩ := p
    by_cases hm : i % sk ≠ 0
    · simp [collectPoints, hm, ih]
    · simp [collectPoints, hm, ih]

theorem samplePass_some (fetch : ℚ → ℚ → Option ℚ) (ls lo : ℚ) {sk : ℕ}
    (h : sk ≠ 0) :
    samplePass fetch ls lo sk =
      some ⟨(collectPoints fetch sk 1 (_generate_grid ls lo)).1,
        some (collectPoints fetch sk 1 (_generate_grid ls lo)).1,
        (collectPoints fetch sk 1 (_generate_grid ls lo)).2⟩ := by
  simp [samplePass, h]

theorem get_global_solar_parsed {d : List (ℚ × ℚ × ℚ)} (hd : d ≠ [])
    (fetch : ℚ → ℚ → Option ℚ) (ls lo : ℚ) (sk : ℕ) :
    get_global_solar_points (.parsed d) fetch ls lo sk = some ⟨d, none, []⟩ := by
  simp [get_global_solar_points, hd]

theorem lorGo_spec (polys : List (List (List (ℚ × ℚ)))) :
    ∀ (b : List (ℚ × ℚ)) (n : ℤ), n ≤ (b.length : ℤ) →
      (lorGo b n polys = b ∨ ∃ p ∈ polys, lorGo b n polys = p.headD []) ∧
      n ≤ ((lorGo b n polys).length : ℤ) ∧
      ∀ p ∈ polys, ((p.headD []).length : ℤ) ≤ ((lorGo b n polys).length : ℤ) := by
  induction polys with
  | nil =>
    intro b n hbn
    exact ⟨Or.inl rfl, hbn, by simp⟩
  | cons q qs ih =>
    intro b n hbn
    by_cases hgt : ((q.headD []).length : ℤ) > n
    · have hstep : lorGo b n (q :: qs) =
          lorGo (q.headD []) ((q.headD []).length : ℤ) qs := by
        simp only [lorGo]
        rw [if_pos hgt]
      obtain ⟨h1, h2, h3⟩ := ih (q.headD []) ((q.headD []).length : ℤ) (le_refl _)
      refine ⟨?_, ?_, ?_⟩
      · rcases h1 with h1 | ⟨p, hp, he⟩
        · exact Or.inr ⟨q, List.mem_cons_self _ _, hstep.trans h1⟩
        · exact Or.inr ⟨p, List.mem_cons_of_mem _ hp, hstep.trans he⟩
      · rw [hstep]; omega
      · intro p hp
        rcases List.mem_cons.mp hp with h | h
        · subst h; rw [hstep]; omega
        · rw [hstep]; exact h3 p h
    · have hstep : lorGo b n (q :: qs) = lorGo b n qs := by
        simp only [lorGo]
        rw [if_neg hgt]
      obtain ⟨h1, h2, h3⟩ := ih b n hbn
      refine ⟨?_, ?_, ?_⟩
      · rcases h1 with h1 | ⟨p, hp, he⟩
        · exact Or.inl (hstep.trans h1)
        · exact Or.inr ⟨p, List.mem_cons_of_mem _ hp, hstep.trans he⟩
      · rw [hstep]; exact h2
      · intro p hp
        rcases List.mem_cons.mp hp with h | h
        · subst h; rw [hstep]; omega
        · rw [hstep]; exact h3 p h

/-! ## Claim theorems -/

/-- C2: evaluation of the code at the failing input.  A non-empty solar
collection whose values are all equal (vmin == vmax) makes both normalization
sites divide by zero: solar.py line 88 (`add_solar_points_layer`) and main.py
line 94 (the Terraformer solar block) raise ZeroDivisionError (modelled as
`none`), contradicting the claim that degenerate collections never raise a
division error. -/
theorem constant_solar_values_zero_division :
    add_solar_points_layer [(10, 10, 5), (12, 10, 5)] = none ∧
    heatSolar [(10, 10, 5), (12, 10, 5)] (fun _ _ => true) (1 / 3) = none := by
  constructor
  · simp [add_solar_points_layer, listMin, listMax]
  · simp [heatSolar, heatSolarGo, listMin, listMax]

/-- C6: with each slider weight in [0, 1], the main.py weight-normalization
block rescales the weights to sum exactly to 1 whenever their raw sum is
nonzero, and leaves them unchanged when the raw sum is zero. -/
theorem weights_rescaled_to_unit_sum (s p c : ℚ)
    (hs0 : 0 ≤ s) (hp0 : 0 ≤ p) (hc0 : 0 ≤ c)
    (_hs1 : s ≤ 1) (_hp1 : p ≤ 1) (_hc1 : c ≤ 1) :
    (s + p + c ≠ 0 →
      (normalizeWeights s p c).1 + (normalizeWeights s p c).2.1 +
        (normalizeWeights s p c).2.2 = 1) ∧
    (s + p + c = 0 → normalizeWeights s p c = (s, p, c)) := by
  constructor
  · intro h
    have hpos : 0 < s + p + c := lt_of_le_of_ne (by positivity) (Ne.symm h)
    simp only [normalizeWeights, if_pos hpos]
    rw [div_add_div_same, div_add_div_same, div_self h]
  · intro h
    simp only [normalizeWeights, h]
    norm_num

/-- C6 witness: slider values 0.2 / 0.3 / 0.4 have nonzero sum and are
rescaled to sum to 1. -/
theorem weights_rescaled_to_unit_sum_witness :
    (normalizeWeights 0.2 0.3 0.4).1 + (normalizeWeights 0.2 0.3 0.4).2.1 +
      (normalizeWeights 0.2 0.3 0.4).2.2 = 1 :=
  (weights_rescaled_to_unit_sum 0.2 0.3 0.4 (by norm_num) (by norm_num)
    (by norm_num) (by norm_num) (by norm_num) (by norm_num)).1 (by norm_num)

/-- C7: main.py `is_on_land` is fail-open (always true) when the polygon
collection failed to load (is empty), and otherwise returns true exactly when
some country polygon contains the point `Point(lon, lat)`. -/
theorem is_on_land_spec (LAND : List ((ℚ × ℚ) → Bool)) (lat lon : ℚ) :
    (LAND = [] → is_on_land LAND lat lon = true) ∧
    (LAND ≠ [] →
      (is_on_land LAND lat lon = true ↔ ∃ g ∈ LAND, g (lon, lat) = true)) := by
  constructor
  · intro h; subst h; rfl
  · intro h
    cases LAND with
    | nil => exact absurd rfl h
    | cons g gs => simp [is_on_land, List.any_eq_true]

/-- C7 witness: with one loaded square polygon around (5, 5), the point
5°N 5°E is on land, the mid-ocean point 0°N 150°W is not, and with the
polygon collection empty (failed load) the same ocean point is reported as
land (fail-open). -/
theorem is_on_land_spec_witness :
    is_on_land [fun q => decide (0 ≤ q.1 ∧ q.1 ≤ 10 ∧ 0 ≤ q.2 ∧ q.2 ≤ 10)]
      5 5 = true ∧
    is_on_land [fun q => decide (0 ≤ q.1 ∧ q.1 ≤ 10 ∧ 0 ≤ q.2 ∧ q.2 ≤ 10)]
      0 (-150) = false ∧
    is_on_land ([] : List ((ℚ × ℚ) → Bool)) 0 (-150) = true := by
  refine ⟨?_, ?_, (is_on_land_spec [] 0 (-150)).1 rfl⟩
  · exact ((is_on_land_spec
      [fun q => decide (0 ≤ q.1 ∧ q.1 ≤ 10 ∧ 0 ≤ q.2 ∧ q.2 ≤ 10)] 5 5).2
        (by simp)).mpr
      ⟨_, List.mem_cons_self _ _, decide_eq_true (by norm_num)⟩
  · have hiff := (is_on_land_spec
      [fun q => decide (0 ≤ q.1 ∧ q.1 ≤ 10 ∧ 0 ≤ q.2 ∧ q.2 ≤ 10)]
      0 (-150)).2 (by simp)
    cases hb : is_on_land
        [fun q => decide (0 ≤ q.1 ∧ q.1 ≤ 10 ∧ 0 ≤ q.2 ∧ q.2 ≤ 10)]
        0 (-150) with
    | false => rfl
    | true =>
      obtain ⟨g, hg, hgt⟩ := hiff.mp hb
      simp only [List.mem_singleton] at hg
      subst hg
      exact absurd (of_decide_eq_true hgt) (by norm_num)

/-- C8: a present cache file parsing to a non-empty list makes
`get_global_solar_points` return exactly the cached triples with no network
calls and no cache write; on a cache miss (absent or unparseable file) the
full sampling pass runs and the collected points are written to the cache
file. -/
theorem solar_cache_short_circuit (d : List (ℚ × ℚ × ℚ)) (hd : d ≠ [])
    (fetch : ℚ → ℚ → Option ℚ) (ls lo : ℚ) (sk : ℕ) (hsk : sk ≠ 0) :
    get_global_solar_points (.parsed d) fetch ls lo sk = some ⟨d, none, []⟩ ∧
    (∃ r, get_global_solar_points .absent fetch ls lo sk = some r ∧
      r.cacheWrite = some r.points) ∧
    (∃ r, get_global_solar_points .unparseable fetch ls lo sk = some r ∧
      r.cacheWrite = some r.points) := by
  refine ⟨get_global_solar_parsed hd fetch ls lo sk, ?_, ?_⟩
  · exact ⟨_, samplePass_some fetch ls lo hsk, rfl⟩
  · exact ⟨_, samplePass_some fetch ls lo hsk, rfl⟩

/-- C8 witness: a concrete one-triple cache is served unchanged with no
network calls, and the cache-miss paths write back what they collected. -/
theorem solar_cache_short_circuit_witness :
    get_global_solar_points (.parsed [(0, 0, 1)]) (fun _ _ => none) 20 20 1 =
      some ⟨[(0, 0, 1)], none, []⟩ ∧
    (∃ r, get_global_solar_points .absent (fun _ _ => none) 20 20 1 = some r ∧
      r.cacheWrite = some r.points) ∧
    (∃ r, get_global_solar_points .unparseable (fun _ _ => none) 20 20 1 =
      some r ∧ r.cacheWrite = some r.points) :=
  solar_cache_short_circuit [(0, 0, 1)] (by simp) (fun _ _ => none) 20 20 1
    (by simp)

/-- C10: while the same non-empty parsed cache is present, two
`get_global_solar_points` calls with different fetch oracles, grid steps and
skip factors return the identical parsed cache content: the result is
independent of lat_step, lon_step and skip_factor. -/
theorem solar_cache_ignores_resolution (d : List (ℚ × ℚ × ℚ)) (hd : d ≠ [])
    (f₁ f₂ : ℚ → ℚ → Option ℚ) (s₁ l₁ s₂ l₂ : ℚ) (k₁ k₂ : ℕ) :
    get_global_solar_points (.parsed d) f₁ s₁ l₁ k₁ =
      get_global_solar_points (.parsed d) f₂ s₂ l₂ k₂ ∧
    get_global_solar_points (.parsed d) f₁ s₁ l₁ k₁ = some ⟨d, none, []⟩ := by
  refine ⟨?_, get_global_solar_parsed hd f₁ s₁ l₁ k₁⟩
  rw [get_global_solar_parsed hd f₁ s₁ l₁ k₁,
    get_global_solar_parsed hd f₂ s₂ l₂ k₂]

/-- C10 witness: a concrete cached triple list is returned unchanged for two
different resolutions and skip factors. -/
theorem solar_cache_ignores_resolution_witness :
    get_global_solar_points (.parsed [(0, 0, 1)]) (fun _ _ => none) 50 50 1 =
      get_global_solar_points (.parsed [(0, 0, 1)]) (fun _ _ => some 7) 20 20 3 ∧
    get_global_solar_points (.parsed [(0, 0, 1)]) (fun _ _ => none) 50 50 1 =
      some ⟨[(0, 0, 1)], none, []⟩ :=
  solar_cache_ignores_resolution [(0, 0, 1)] (by simp) (fun _ _ => none)
    (fun _ _ => some 7) 50 50 20 20 1 3

/-- C5: `resolve_admin_name` resolves in order: (1) a name that is a key of
the mapping resolves to itself (the alias table is not consulted); (2)
otherwise an alias target is returned only when it is a key of the mapping;
(3) otherwise the Unicode apostrophe is replaced by the ASCII one and exact
match retried; if all three fail the result is `none`, and the Terraformer
CO₂ loop skips such a record silently. -/
theorem resolve_admin_name_order (name : String)
    (d : List (String × (ℚ × ℚ))) :
    (hasKey d name = true → resolve_admin_name name d = some name) ∧
    (hasKey d name = false → ∀ a, lookupStr ALIASES name = some a →
      hasKey d a = true → resolve_admin_name name d = some a) ∧
    (hasKey d name = false →
      (lookupStr ALIASES name = none ∨
        ∃ a, lookupStr ALIASES name = some a ∧ hasKey d a = false) →
      hasKey d (pyReplaceChar rsquoChar aposChar name) = true →
      resolve_admin_name name d =
        some (pyReplaceChar rsquoChar aposChar name)) ∧
    (hasKey d name = false →
      (lookupStr ALIASES name = none ∨
        ∃ a, lookupStr ALIASES name = some a ∧ hasKey d a = false) →
      hasKey d (pyReplaceChar rsquoChar aposChar name) = false →
      resolve_admin_name name d = none) ∧
    (∀ cmax w coords land ck v rest, resolve_admin_name ck coords = none →
      heatCO2Go cmax w coords land ((ck, v) :: rest) =
        heatCO2Go cmax w coords land rest) := by
  refine ⟨?_, ?_, ?_, ?_, ?_⟩
  · intro h
    simp [resolve_admin_name, h]
  · intro h a ha hk
    simp [resolve_admin_name, h, ha, hk]
  · intro h hal hc
    rcases hal with hal | ⟨a, ha, hk0⟩
    · simp [resolve_admin_name, h, hal, hc]
    · simp [resolve_admin_name, h, ha, hk0, hc]
  · intro h hal hc
    rcases hal with hal | ⟨a, ha, hk0⟩
    · simp [resolve_admin_name, h, hal, hc]
    · simp [resolve_admin_name, h, ha, hk0, hc]
  · intro cmax w coords land ck v rest hres
    exact heatCO2Go_skip_unresolved cmax w coords land ck v rest hres

/-- C5 witness: over a concrete centroid mapping, "Vietnam" resolves
verbatim, "Viet Nam" resolves through its alias, the Unicode-apostrophe
variant of "Cote d\u0027Ivoire" resolves after apostrophe normalization, and
"Atlantis" is unresolved. -/
theorem resolve_admin_name_order_witness :
    resolve_admin_name "Vietnam"
      [("Vietnam", (14.1, 108.3)), ("Cote d\u0027Ivoire", (7.5, -5.5))] =
      some "Vietnam" ∧
    resolve_admin_name "Viet Nam"
      [("Vietnam", (14.1, 108.3)), ("Cote d\u0027Ivoire", (7.5, -5.5))] =
      some "Vietnam" ∧
    resolve_admin_name "Cote d\u2019Ivoire"
      [("Vietnam", (14.1, 108.3)), ("Cote d\u0027Ivoire", (7.5, -5.5))] =
      some (pyReplaceChar rsquoChar aposChar "Cote d\u2019Ivoire") ∧
    resolve_admin_name "Atlantis"
      [("Vietnam", (14.1, 108.3)), ("Cote d\u0027Ivoire", (7.5, -5.5))] =
      none := by
  refine ⟨?_, ?_, ?_, ?_⟩
  · exact (resolve_admin_name_order "Vietnam" _).1 (by decide)
  · exact (resolve_admin_name_order "Viet Nam" _).2.1 (by decide) "Vietnam"
      (by decide) (by decide)
  · exact (resolve_admin_name_order "Cote d\u2019Ivoire" _).2.2.1 (by decide)
      (Or.inl (by decide)) (by decide)
  · exact (resolve_admin_name_order "Atlantis" _).2.2.2.1 (by decide)
      (Or.inl (by decide)) (by decide)

/-- C4 counterexample: the claim restricts the lattice to latitudes in
[-90, 90] for every positive step, but `np.arange(-90, 91, step)` stops
strictly below 91, not at 90: with lat_step = 60.25 the grid contains the
latitude 90.75, which is greater than 90. -/
theorem grid_exceeds_latitude_range_cex :
    ((90.75 : ℚ), (-180 : ℚ)) ∈ _generate_grid 60.25 180.25 ∧
    ¬((90.75 : ℚ) ≤ 90) := by
  have h1 : arange (-90) 91 60.25 = [(-90 : ℚ), -29.75, 30.5, 90.75] := by
    rw [arange_eval (n := 4) (by rw [Int.ceil_eq_iff]; norm_num)]
    norm_num [List.range_succ]
  have h2 : arange (-180) 181 180.25 = [(-180 : ℚ), 0.25, 180.5] := by
    rw [arange_eval (n := 3) (by rw [Int.ceil_eq_iff]; norm_num)]
    norm_num [List.range_succ]
  constructor
  · rw [mem_generate_grid, h1, h2]
    norm_num
  · norm_num

/-- C4 (amended): for positive steps the grid is the deterministic row-major
cross product of the two `arange` axes, its length is the product of the axis
lengths, latitudes lie in [-90, 91) and longitudes in [-180, 181) (so they
may slightly exceed 90/180 when the step does not land exactly on the upper
bound), and lat_step = 90, lon_step = 180 yields exactly the nine points with
latitudes -90, 0, 90 and longitudes -180, 0, 180.  Determinism is inherent:
the grid is a pure function of the two steps. -/
theorem grid_lattice_amended (s t : ℚ) (hs : 0 < s) (ht : 0 < t) :
    GridSpec s t := by
  refine ⟨length_generate_grid s t, ?_, ?_, ?_, grid_90_180⟩
  · intro la lo
    exact mem_generate_grid
  · intro la hla
    exact arange_bounds hs hla
  · intro lo hlo
    exact arange_bounds ht hlo

/-- C4 witness: the amended grid specification at the concrete steps 90/180
of the end-to-end scenario. -/
theorem grid_lattice_amended_witness : GridSpec 90 180 :=
  grid_lattice_amended 90 180 (by norm_num) (by norm_num)

/-- C9: for a feature with a non-empty admin name, a Polygon geometry stores
the arithmetic mean of the vertices of its outer (first) ring as (lat, lon); a
MultiPolygon first selects the sub-polygon whose outer ring has the most
vertices (earliest on ties, via the strict-greater fold) and stores its
vertex mean; features with any other geometry type, a missing geometry, a
missing or empty admin name, or a Polygon without rings are skipped, and
`generate_country_coords` is exactly the per-feature map over the feature
collection. -/
theorem feature_centroid_spec (admin : String) (hadmin : admin ≠ "") :
    (∀ outer rings, outer ≠ [] →
      featureCentroid ⟨some admin, some (.polygon (outer :: rings))⟩ =
        some (admin,
          ((outer.map (fun q => q.2)).sum / outer.length,
           (outer.map (fun q => q.1)).sum / outer.length))) ∧
    (∀ polys, _largest_outer_ring polys ≠ [] →
      featureCentroid ⟨some admin, some (.multiPolygon polys)⟩ =
        some (admin,
          (((_largest_outer_ring polys).map (fun q => q.2)).sum /
              (_largest_outer_ring polys).length,
           ((_largest_outer_ring polys).map (fun q => q.1)).sum /
              (_largest_outer_ring polys).length)) ∧
      (∀ p ∈ polys,
        (p.headD []).length ≤ (_largest_outer_ring polys).length) ∧
      (∃ p ∈ polys, _largest_outer_ring polys = p.headD [])) ∧
    featureCentroid ⟨some admin, some .other⟩ = none ∧
    featureCentroid ⟨some admin, none⟩ = none ∧
    featureCentroid ⟨some admin, some (.polygon [])⟩ = none ∧
    (∀ g, featureCentroid ⟨none, g⟩ = none) ∧
    (∀ g, featureCentroid ⟨some "", g⟩ = none) ∧
    (∀ features, generate_country_coords features =
      features.filterMap featureCentroid) := by
  refine ⟨?_, ?_, by simp [featureCentroid, hadmin], by simp [featureCentroid, hadmin],
    by simp [featureCentroid, hadmin], fun g => rfl, fun g => by simp [featureCentroid],
    fun features => rfl⟩
  · intro outer rings houter
    simp [featureCentroid, hadmin, _poly_mean, houter]
  · intro polys hlne
    obtain ⟨h1, _, h3⟩ := lorGo_spec polys [] (-1) (by simp)
    refine ⟨?_, ?_, ?_⟩
    · simp [featureCentroid, hadmin, _poly_mean, hlne]
    · intro p hp
      have := h3 p hp
      exact_mod_cast this
    · rcases h1 with h1 | h1
      · exact absurd h1 hlne
      · exact h1

/-- C9 witness: a square Polygon stores the vertex mean (5, 5); a
MultiPolygon with rings of 3 and 4 vertices selects the 4-vertex ring and
stores its vertex mean (1, 1). -/
theorem feature_centroid_spec_witness :
    featureCentroid ⟨some "Testland",
      some (.polygon [[(0, 0), (10, 0), (10, 10), (0, 10)]])⟩ =
      some ("Testland", (5, 5)) ∧
    featureCentroid ⟨some "Multi",
      some (.multiPolygon [[[(0, 0), (1, 0), (1, 1)]],
        [[(0, 0), (2, 0), (2, 2), (0, 2)]]])⟩ = some ("Multi", (1, 1)) := by
  constructor
  · have h := (feature_centroid_spec "Testland" (by decide)).1
      [(0, 0), (10, 0), (10, 10), (0, 10)] [] (by simp)
    rw [h]
    norm_num
  · have hlor : _largest_outer_ring
        [[[((0 : ℚ), (0 : ℚ)), (1, 0), (1, 1)]],
         [[(0, 0), (2, 0), (2, 2), (0, 2)]]] =
        [((0 : ℚ), (0 : ℚ)), (2, 0), (2, 2), (0, 2)] := rfl
    have h := ((feature_centroid_spec "Multi" (by decide)).2.1
      [[[((0 : ℚ), (0 : ℚ)), (1, 0), (1, 1)]],
       [[(0, 0), (2, 0), (2, 2), (0, 2)]]]
      (by rw [hlor]; simp)).1
    rw [h, hlor]
    norm_num

/-- C1 counterexample: the CO₂ compositing site does not apply
(v - vmin)/(vmax - vmin).  On the rows Argentina=1, Brazil=2 (weight 1,
everything on land) the code emits weight 1/2 for the minimum qualifying
value, while the claimed min-max formula maps the minimum to 0. -/
theorem co2_site_divides_by_max_only_cex :
    heatCO2 [("Argentina", 1), ("Brazil", 2)]
      [("Argentina", (-38.4, -63.6)), ("Brazil", (-10.8, -52.9))]
      (fun _ _ => true) 1 =
      some [(-38.4, -63.6, 1 / 2), (-10.8, -52.9, 1)] ∧
    minmaxNorm 1 2 1 = 0 ∧ ¬((1 : ℚ) / 2 = 0) := by
  refine ⟨?_, by simp [minmaxNorm], by norm_num⟩
  have hmax : listMax ([("Argentina", (1 : ℚ)), ("Brazil", 2)].map
      (fun r => r.2)) = 2 := by
    simp [listMax]
  have hres1 : resolve_admin_name "Argentina"
      [("Argentina", ((-38.4 : ℚ), (-63.6 : ℚ))), ("Brazil", (-10.8, -52.9))] =
      some "Argentina" := by decide
  have hres2 : resolve_admin_name "Brazil"
      [("Argentina", ((-38.4 : ℚ), (-63.6 : ℚ))), ("Brazil", (-10.8, -52.9))] =
      some "Brazil" := by decide
  have hlk1 : lookupStr
      [("Argentina", ((-38.4 : ℚ), (-63.6 : ℚ))), ("Brazil", (-10.8, -52.9))]
      "Argentina" = some (-38.4, -63.6) := rfl
  have hlk2 : lookupStr
      [("Argentina", ((-38.4 : ℚ), (-63.6 : ℚ))), ("Brazil", (-10.8, -52.9))]
      "Brazil" = some (-10.8, -52.9) := rfl
  simp only [heatCO2,
    if_neg (show ¬([("Argentina", (1 : ℚ)), ("Brazil", 2)] = []) by simp), hmax]
  simp only [heatCO2Go, hres1, hlk1, hres2, hlk2, eq_self_iff_true, if_true,
    if_neg (show ¬((1 : ℚ) ≤ 0) by norm_num),
    if_neg (show ¬((2 : ℚ) ≤ 0) by norm_num), Option.map_some']
  norm_num [maxNorm]

/-- C1 (amended): the solar sites (solar.py `add_solar_points_layer` and the
Terraformer solar block) really use min-max normalization — for a non-empty
collection with vmin ≠ vmax every emitted solar weight is
w·(v - vmin)/(vmax - vmin), those factors lie in [0, 1], the minimum maps to
0 and the maximum to 1 — but the CO₂ and pipeline compositing sites divide by
the maximum only: every emitted CO₂ weight is w·(val/cmax), in (0, w·1] for
nonnegative w, and every pipeline weight is w·(count/pmax); the minimum
qualifying value maps to vmin/vmax, not 0. -/
theorem normalization_sites_amended (pts : List (ℚ × ℚ × ℚ))
    (land : ℚ → ℚ → Bool) (w : ℚ) (hne : pts ≠ [])
    (hmm : listMin (pts.map (fun p => p.2.2)) ≠
      listMax (pts.map (fun p => p.2.2))) :
    NormSitesSpec pts land w := by
  have hsv : pts.map (fun p => p.2.2) ≠ [] := by
    intro h
    exact hne (List.map_eq_nil_iff.mp h)
  have hlt : listMin (pts.map (fun p => p.2.2)) <
      listMax (pts.map (fun p => p.2.2)) :=
    lt_of_le_of_ne (listMin_le_listMax hsv) hmm
  have hd : listMax (pts.map (fun p => p.2.2)) -
      listMin (pts.map (fun p => p.2.2)) ≠ 0 := by
    intro h0
    exact hmm (by linarith)
  unfold NormSitesSpec
  refine ⟨?_, ?_, ?_, ?_, ?_, ?_, fun vmax v => rfl, fun a b v => rfl⟩
  · obtain ⟨hp, h1, h2⟩ := @heatSolarGo_eq_some _ _ w land hd pts
    refine ⟨hp, ?_, ?_⟩
    · rw [show heatSolar pts land w =
        heatSolarGo (listMin (pts.map (fun p => p.2.2)))
          (listMax (pts.map (fun p => p.2.2))) w land pts by
        simp only [heatSolar, if_neg hne]]
      exact h1
    · intro x hx
      obtain ⟨p, hpmem, hxe⟩ := h2 x hx
      have hv : p.2.2 ∈ pts.map (fun p => p.2.2) :=
        List.mem_map_of_mem _ hpmem
      obtain ⟨hb0, hb1⟩ := minmaxNorm_bounds hlt (listMin_le hv) (le_listMax hv)
      exact ⟨p, hpmem, hxe, hb0, hb1⟩
  · simp [minmaxNorm]
  · unfold minmaxNorm
    exact div_self hd
  · simp only [add_solar_points_layer, if_neg hne, if_neg hd]
  · intro rows coords hp3 hco2 x hx
    have hrows : rows ≠ [] := by
      intro h0
      rw [h0] at hco2
      simp [heatCO2] at hco2
    have hgo : heatCO2Go (listMax (rows.map (fun q => q.2))) w coords land
        rows = some hp3 := by
      rw [show heatCO2 rows coords land w =
        heatCO2Go (listMax (rows.map (fun r => r.2))) w coords land rows by
        simp only [heatCO2, if_neg hrows]] at hco2
      exact hco2
    obtain ⟨r, hr, hpos, heq⟩ := heatCO2Go_weights rows hp3 hgo x hx
    have hrle : r.2 ≤ listMax (rows.map (fun q => q.2)) :=
      le_listMax (List.mem_map_of_mem _ hr)
    have hcm : (0 : ℚ) < listMax (rows.map (fun q => q.2)) :=
      lt_of_lt_of_le hpos hrle
    refine ⟨r, hr, hpos, heq, ?_, ?_⟩
    · unfold maxNorm
      exact div_pos hpos hcm
    · unfold maxNorm
      exact (div_le_one hcm).mpr hrle
  · intro counts coords hp2 hpl x hx
    by_cases hc : counts = []
    · subst hc
      simp [heatPipelines] at hpl
      subst hpl
      cases hx
    · have hgo : heatPipelinesGo (listMax (counts.map (fun q => q.2))) w
          coords land counts = some hp2 := by
        rw [show heatPipelines counts coords land w =
          heatPipelinesGo (listMax (counts.map (fun kv => kv.2))) w coords
            land counts by
          simp only [heatPipelines, if_neg hc]] at hpl
        exact hpl
      exact heatPipelinesGo_weights counts hp2 hgo x hx

/-- C1 witness: the amended normalization-site specification at the concrete
solar collection [(0, 0, 1), (0, 10, 3)] (non-empty, vmin = 1 ≠ 3 = vmax)
with weight 1 and an all-true land mask. -/
theorem normalization_sites_amended_witness :
    NormSitesSpec [(0, 0, 1), (0, 10, 3)] (fun _ _ => true) 1 :=
  normalization_sites_amended _ _ _ (by simp)
    (by
      have h1 : listMin ([((0 : ℚ), (0 : ℚ), (1 : ℚ)), (0, 10, 3)].map
          (fun p => p.2.2)) ≤ 1 := listMin_le (by simp)
      have h2 : (3 : ℚ) ≤ listMax ([((0 : ℚ), (0 : ℚ), (1 : ℚ)), (0, 10, 3)].map
          (fun p => p.2.2)) := le_listMax (by simp)
      intro h
      rw [h] at h1
      linarith)

/-- C3 counterexample: with the CO₂ CSV file absent (and every other input
healthy: a non-empty solar cache, a present centroid cache, layers on land),
the top-level Terraformer render does not complete with a status message but
aborts with the uncaught FileNotFoundError raised by
`get_country_co2_data`. -/
theorem missing_csv_render_error_cex :
    mainTerraformer (.parsed [(10, 10, 5), (10, 30, 6)]) (fun _ _ => none)
      none (some []) none [] (1 / 3) (1 / 3) (1 / 3) =
      .error "FileNotFoundError: Missing data file" := rfl

/-- C3 (amended): the render degrades gracefully for solar-side failures —
with the solar cache absent and every network fetch failing the sampler
returns no points (writing an empty cache) without raising, the land mask
fails open when its polygons are empty, and the render completes whenever the
CO₂-side inputs load — but a missing CO₂ CSV is fatal: for every cache
state, fetch oracle, centroid source, land set and weights, the render
terminates with the uncaught FileNotFoundError. -/
theorem graceful_degradation_amended : GracefulSpec := by
  have hb : ∀ {α β : Type} (a : α) (f : α → Except String β),
      (Except.ok a >>= f) = f a := fun _ _ => rfl
  refine ⟨?_, ?_, ?_, ?_⟩
  · intro cache fetch cf gs LAND sw pw cw
    have hsol : ∃ srs, get_global_solar_points cache fetch 20 20 1 =
        some srs := by
      cases cache with
      | parsed data =>
        by_cases hdata : data = []
        · subst hdata
          rw [show get_global_solar_points (.parsed []) fetch 20 20 1 =
            samplePass fetch 20 20 1 by simp [get_global_solar_points]]
          exact ⟨_, samplePass_some fetch 20 20 (by simp)⟩
        · exact ⟨_, get_global_solar_parsed hdata fetch 20 20 1⟩
      | absent =>
        rw [show get_global_solar_points .absent fetch 20 20 1 =
          samplePass fetch 20 20 1 from rfl]
        exact ⟨_, samplePass_some fetch 20 20 (by simp)⟩
      | unparseable =>
        rw [show get_global_solar_points .unparseable fetch 20 20 1 =
          samplePass fetch 20 20 1 from rfl]
        exact ⟨_, samplePass_some fetch 20 20 (by simp)⟩
    obtain ⟨srs, hsrs⟩ := hsol
    simp only [mainTerraformer, hsrs, exceptOfOption, hb]
    rfl
  · intro csvFile cf gs LAND sw pw cw rows coords hp3 hcsv hcoords hco2
    have hsol : get_global_solar_points .absent (fun _ _ => none) 20 20 1 =
        some ⟨[], some [],
          (collectPoints (fun _ _ => none) 1 1 (_generate_grid 20 20)).2⟩ := by
      rw [show get_global_solar_points .absent (fun _ _ => none) 20 20 1 =
          samplePass (fun _ _ => none) 20 20 1 from rfl,
        samplePass_some (fun _ _ => none) 20 20 (by simp),
        collectPoints_none_fst]
    have hargmem : ("Argentina", (1709 : ℚ)) ∈ PIPELINE_COUNTS := by
      unfold PIPELINE_COUNTS
      exact List.mem_cons_self _ _
    have hpm : listMax (PIPELINE_COUNTS.map (fun kv => kv.2)) ≠ 0 := by
      have h17 : (1709 : ℚ) ≤ listMax (PIPELINE_COUNTS.map (fun kv => kv.2)) :=
        le_listMax (List.mem_map_of_mem _ hargmem)
      intro h0
      rw [h0] at h17
      linarith
    obtain ⟨hp2, hpl⟩ := @heatPipelinesGo_isSome _
      ((normalizeWeights sw pw cw).2.1) COUNTRY_COORDS
      (is_on_land LAND) hpm PIPELINE_COUNTS
    have hplines : heatPipelines PIPELINE_COUNTS COUNTRY_COORDS
        (is_on_land LAND) (normalizeWeights sw pw cw).2.1 = some hp2 := by
      rw [show heatPipelines PIPELINE_COUNTS COUNTRY_COORDS
          (is_on_land LAND) (normalizeWeights sw pw cw).2.1 =
          heatPipelinesGo (listMax (PIPELINE_COUNTS.map (fun kv => kv.2)))
            (normalizeWeights sw pw cw).2.1 COUNTRY_COORDS (is_on_land LAND)
            PIPELINE_COUNTS by
        simp only [heatPipelines,
          if_neg (show ¬(PIPELINE_COUNTS = []) by unfold PIPELINE_COUNTS; simp)]]
      exact hpl
    refine ⟨[] ++ hp2 ++ hp3, ?_⟩
    simp only [mainTerraformer, hsol, exceptOfOption, hb, hcsv, hcoords]
    simp only [show heatSolar [] (is_on_land LAND)
        (normalizeWeights sw pw cw).1 = some [] from rfl,
      exceptOfOption, hb, hplines, hco2]
    rfl
  · intro LAND lat lon h
    subst h
    rfl
  · exact ⟨⟨[], some [],
      (collectPoints (fun _ _ => none) 1 1 (_generate_grid 20 20)).2⟩,
      by rw [show get_global_solar_points .absent (fun _ _ => none) 20 20 1 =
          samplePass (fun _ _ => none) 20 20 1 from rfl,
        samplePass_some (fun _ _ => none) 20 20 (by simp),
        collectPoints_none_fst], rfl, rfl⟩

end TerraformEarth
